import Mathlib

/-!
Verification of the space-gps frame lifecycle and resource-synchronization
subsystem against its natural-language specification.

The definitions below are a shallow embedding of the Python sources:

* `SpaceGps.Engine.render` embeds `Engine.render` (src/src/display/engine.py,
  lines 408-487): the per-frame protocol of fence wait, fence reset, image
  acquisition, command-buffer reset, frame preparation, draw recording,
  queue submission, presentation and frame-counter advance.  External
  Vulkan calls are modelled by a `RenderEnv` oracle giving the outcome of
  each fallible boundary call; the function returns the successor engine
  state, the trace of boundary events in program order, and the call's
  outcome (normal return or a propagated Python exception).
* `SpaceGps.chose_swapchain_extent` embeds `_chose_swapchain_extent`
  (src/src/display/swapchain.py, lines 244-280).
* `SpaceGps.recreate_swapchain_trace` and
  `SpaceGps.cleanup_swapchain_trace` embed `Engine.__recreate_swapchain`
  (engine.py lines 671-696) and `Engine.__cleanup_swapchain` (lines
  752-771) as traces of destruction/creation events.
* `SpaceGps.make_fence`, `SpaceGps.make_semaphore`,
  `SpaceGps.make_command_pool` and `SpaceGps.make_command_buffer` embed
  the creation helpers of src/src/display/sync.py and
  src/src/display/commands.py.
* `SpaceGps.record_draw_command` embeds `Engine.__record_draw_command`
  and `Engine.__render_mesh` (engine.py lines 489-587), including the
  Python `with`-statement semantics of `CommandBufferManager` and
  `RenderPassManager` (src/src/display/commands.py lines 104-148).
* `SpaceGps.prepare_frame` embeds `Engine.__prepare_frame` (engine.py
  lines 589-666) together with the 1024-entry transform table created by
  `SwapChainFrame.make_descriptor_resources` (swapchain.py lines
  144-167).
* `SpaceGps.run_loop` embeds `SpaceGPS.run` / `SpaceGPS.__mainloop`
  (src/main.py lines 33-43) together with Python's call-argument binding
  for `Engine.render`.

Scene positions and model matrices carry no arithmetic relevant to the
verified properties, so positions are an arbitrary type parameter and
matrices are an opaque inductive with an identity and a translation
constructor, mirroring `matrix44.create_identity` and
`matrix44.create_from_translation`.
-/

namespace SpaceGps

/-- Outcome reported by `vkAcquireNextImageKHR`: a successful image index,
the `VkErrorOutOfDateKhr` exception (caught by `Engine.render`), or any
other Vulkan error (uncaught, hence propagated). -/
inductive AcquireResult where
  | success (idx : Nat)
  | outOfDate
  | otherError
  deriving DecidableEq, Repr

/-- Outcome reported by `vkQueueSubmit`: normal return, or a `VkError` /
`VkException` (caught and logged by `Engine.render`). -/
inductive SubmitResult where
  | ok
  | err
  deriving DecidableEq, Repr

/-- Outcome reported by `vkQueuePresentKHR`: normal return, the
`VkErrorOutOfDateKhr` exception (caught, triggering a swapchain
recreation), or any other error (uncaught, hence propagated). -/
inductive PresentResult where
  | ok
  | outOfDate
  | otherError
  deriving DecidableEq, Repr

/-- Oracle for the external outcomes of one `Engine.render` call.
`prepareOk` is whether `Engine.__prepare_frame` returns normally (it
raises `IndexError` when the scene overflows the transform table);
`recreatedImageCount` is the image count of the swapchain built by
`Engine.__recreate_swapchain`, should that method run. -/
structure RenderEnv where
  acquire : AcquireResult
  prepareOk : Bool
  submit : SubmitResult
  present : PresentResult
  recreatedImageCount : Nat
  deriving DecidableEq, Repr

/-- Mutable state of `Engine` relevant to the per-frame protocol:
`self.__current_frame_number` and `self.__max_frames_in_flight`. -/
structure EngineState where
  currentFrameNumber : Nat
  maxFramesInFlight : Nat
  deriving DecidableEq, Repr

/-- Boundary events of one `Engine.render` call, in program order. -/
inductive Ev where
  | waitFence (slot : Nat)
  | resetFence (slot : Nat)
  | acquireSuccess (idx : Nat)
  | acquireOutOfDate
  | acquireFatal
  | recreateSwapchain
  | resetCommandBuffer (idx : Nat)
  | prepareFrame (idx : Nat)
  | prepareFrameFail (idx : Nat)
  | recordDraw (idx : Nat)
  | queueSubmit (slot : Nat)
  | submitFailLogged
  | presentImage (idx : Nat)
  | presentOutOfDate
  | presentFatal
  | advanceFrame
  deriving DecidableEq, Repr

/-- Python exceptions relevant to the embedded code paths. -/
inductive PyErr where
  | unboundLocalError
  | indexError
  | typeError
  | vkError
  deriving DecidableEq, Repr

/-- Outcome of one `Engine.render` call: normal return or a propagated
exception. -/
inductive RenderOutcome where
  | ok
  | exn (e : PyErr)
  deriving DecidableEq, Repr

/-- Result of one `Engine.render` call: successor state, event trace and
outcome. -/
structure RenderResult where
  state : EngineState
  trace : List Ev
  outcome : RenderOutcome
  deriving DecidableEq, Repr

namespace Engine

/-- Shallow embedding of `Engine.render` (engine.py lines 408-487).

Control flow mirrors the source line by line:
`vkWaitForFences` (425) then `vkResetFences` (432) on the current slot's
fence; then `vkAcquireNextImageKHR` inside `try` (434-441).  On
`VkErrorOutOfDateKhr` the handler calls `__recreate_swapchain` (443) and
control falls through to line 445, where `frame_index` was never bound,
so Python raises `UnboundLocalError`.  On success: `vkResetCommandBuffer`
(448), `__prepare_frame` (450), `__record_draw_command` (451),
`vkQueueSubmit` with errors caught and logged (468-471),
`vkQueuePresentKHR` with `VkErrorOutOfDateKhr` triggering
`__recreate_swapchain` (481-484), and the unconditional counter advance
modulo `__max_frames_in_flight` (486-487). -/
def render (s : EngineState) (env : RenderEnv) : RenderResult :=
  let slot := s.currentFrameNumber
  let pre := [Ev.waitFence slot, Ev.resetFence slot]
  match env.acquire with
  | AcquireResult.outOfDate =>
      { state := { s with maxFramesInFlight := env.recreatedImageCount },
        trace := pre ++ [Ev.acquireOutOfDate, Ev.recreateSwapchain],
        outcome := RenderOutcome.exn PyErr.unboundLocalError }
  | AcquireResult.otherError =>
      { state := s,
        trace := pre ++ [Ev.acquireFatal],
        outcome := RenderOutcome.exn PyErr.vkError }
  | AcquireResult.success idx =>
      let ev1 := pre ++ [Ev.acquireSuccess idx, Ev.resetCommandBuffer idx]
      if env.prepareOk then
        let ev2 := ev1 ++ [Ev.prepareFrame idx, Ev.recordDraw idx]
        let ev3 := ev2 ++ (match env.submit with
          | SubmitResult.ok => [Ev.queueSubmit slot]
          | SubmitResult.err => [Ev.submitFailLogged])
        match env.present with
        | PresentResult.ok =>
            { state := { s with
                currentFrameNumber := (slot + 1) % s.maxFramesInFlight },
              trace := ev3 ++ [Ev.presentImage idx, Ev.advanceFrame],
              outcome := RenderOutcome.ok }
        | PresentResult.outOfDate =>
            let m := env.recreatedImageCount
            { state := { currentFrameNumber := (slot + 1) % m,
                         maxFramesInFlight := m },
              trace := ev3 ++ [Ev.presentOutOfDate, Ev.recreateSwapchain,
                               Ev.advanceFrame],
              outcome := RenderOutcome.ok }
        | PresentResult.otherError =>
            { state := s,
              trace := ev3 ++ [Ev.presentFatal],
              outcome := RenderOutcome.exn PyErr.vkError }
      else
        { state := s,
          trace := ev1 ++ [Ev.prepareFrameFail idx],
          outcome := RenderOutcome.exn PyErr.indexError }

end Engine

/-- Checker for the property claimed of one `Engine.render` trace: every
`resetFence` event is preceded by a successful-acquisition event.  The
accumulator records whether an `acquireSuccess` event has been seen. -/
def resetOnlyAfterAcquireAux : Bool → List Ev → Bool
  | _, [] => true
  | _, Ev.acquireSuccess _ :: rest => resetOnlyAfterAcquireAux true rest
  | seen, Ev.resetFence _ :: rest => seen && resetOnlyAfterAcquireAux seen rest
  | seen, _ :: rest => resetOnlyAfterAcquireAux seen rest

/-- A trace resets the in-flight fence only after a successful image
acquisition. -/
def resetOnlyAfterAcquire (tr : List Ev) : Bool :=
  resetOnlyAfterAcquireAux false tr

/-- Whether an `Engine.render` call with these external outcomes returns
normally: acquisition succeeds, `__prepare_frame` returns normally, and
presentation does not raise an uncaught error.  (A submission error is
caught and logged, so it does not affect normal return.) -/
def envIsSuccessful (e : RenderEnv) : Bool :=
  (match e.acquire with
   | AcquireResult.success _ => true
   | _ => false)
  && e.prepareOk
  && (match e.present with
      | PresentResult.otherError => false
      | _ => true)

/-- Iterate `Engine.render` over a list of per-call external outcomes,
keeping only the engine state (as the Python engine object does). -/
def renderRun (s : EngineState) (envs : List RenderEnv) : EngineState :=
  envs.foldl (fun st e => (Engine.render st e).state) s

/-! Swapchain extent and image-count selection.  Window dimensions and
capability fields are non-negative machine integers, modelled as
`Nat`. -/

/-- A `VkExtent2D`: a width and a height in pixels. -/
structure VkExtent2D where
  width : Nat
  height : Nat
  deriving DecidableEq, Repr

/-- The fields of `VkSurfaceCapabilitiesKHR` read by
`_chose_swapchain_extent`. -/
structure VkSurfaceCapabilities where
  minImageExtent : VkExtent2D
  maxImageExtent : VkExtent2D
  minImageCount : Nat
  maxImageCount : Nat
  currentTransform : Nat
  deriving DecidableEq, Repr

/-- Shallow embedding of `_chose_swapchain_extent` (swapchain.py lines
244-280): clamp the requested width and height into
`[minImageExtent, maxImageExtent]` componentwise, and compute the image
count as `min(maxImageCount, minImageCount + 1)`.  Returns
`(extent, image_count, currentTransform)`. -/
def chose_swapchain_extent (caps : VkSurfaceCapabilities)
    (width height : Nat) : VkExtent2D × Nat × Nat :=
  let w := min caps.maxImageExtent.width
      (max caps.minImageExtent.width width)
  let h := min caps.maxImageExtent.height
      (max caps.minImageExtent.height height)
  let image_count := min caps.maxImageCount (caps.minImageCount + 1)
  (⟨w, h⟩, image_count, caps.currentTransform)

/-- Image count as the specification words it: `min(maxImageCount,
minImageCount + 1)`, treating `maxImageCount == 0` as unbounded. -/
def specImageCount (caps : VkSurfaceCapabilities) : Nat :=
  if caps.maxImageCount = 0 then caps.minImageCount + 1
  else min caps.maxImageCount (caps.minImageCount + 1)

/-! Swapchain recreation as traces of destruction/creation events over
the frame slots, indexed by their position in
`self.__swapchain_frames`. -/

/-- Destruction and creation events issued during swapchain cleanup,
recreation and engine teardown. -/
inductive RebuildEv where
  | pollEventsMinimized
  | deviceWaitIdle
  | destroyImageView (i : Nat)
  | destroyFramebuffer (i : Nat)
  | unmapModelMemory (i : Nat)
  | freeModelMemory (i : Nat)
  | destroyModelBuffer (i : Nat)
  | unmapUniformMemory (i : Nat)
  | freeUniformMemory (i : Nat)
  | destroyUniformBuffer (i : Nat)
  | destroyRenderFinishedSemaphore (i : Nat)
  | destroyImageAvailableSemaphore (i : Nat)
  | destroyInFlightFence (i : Nat)
  | destroyDescriptorPool
  | destroySwapchainHandle
  | destroyPipeline
  | destroyRenderPass
  | destroyPipelineLayout
  | destroyCommandPool
  | destroyDevice
  | destroyInstance
  | makeSwapchain
  | makeFrameBuffers
  | makeGraphicsPipeline
  | makeCommandBuffer (i : Nat)
  | makeFrameResources
  deriving DecidableEq, Repr

/-- Per-frame destruction sequence of the `for frame in
self.__swapchain_frames` loop of `Engine.__cleanup_swapchain` (engine.py
lines 753-767), in source order. -/
def cleanup_frame_trace (i : Nat) : List RebuildEv :=
  [RebuildEv.destroyImageView i,
   RebuildEv.destroyFramebuffer i,
   RebuildEv.unmapModelMemory i,
   RebuildEv.freeModelMemory i,
   RebuildEv.destroyModelBuffer i,
   RebuildEv.unmapUniformMemory i,
   RebuildEv.freeUniformMemory i,
   RebuildEv.destroyUniformBuffer i,
   RebuildEv.destroyRenderFinishedSemaphore i,
   RebuildEv.destroyImageAvailableSemaphore i,
   RebuildEv.destroyInFlightFence i]

/-- Shallow embedding of `Engine.__cleanup_swapchain` (engine.py lines
752-771) over `n` frame slots: the per-frame loop, then the frame
descriptor pool, then the swapchain handle. -/
def cleanup_swapchain_trace (n : Nat) : List RebuildEv :=
  (List.range n).flatMap cleanup_frame_trace
    ++ [RebuildEv.destroyDescriptorPool, RebuildEv.destroySwapchainHandle]

/-- Shallow embedding of `Engine.__recreate_swapchain` (engine.py lines
671-696) with `oldN` frame slots before and `newN` after: block polling
events while the window is minimized, wait for device idle, run
`__cleanup_swapchain`, then `__make_swapchain`, `__make_frame_buffers`,
one `make_command_buffer` per new frame slot, and
`__make_frame_resources`. -/
def recreate_swapchain_trace (oldN newN : Nat) : List RebuildEv :=
  [RebuildEv.pollEventsMinimized, RebuildEv.deviceWaitIdle]
    ++ cleanup_swapchain_trace oldN
    ++ [RebuildEv.makeSwapchain, RebuildEv.makeFrameBuffers]
    ++ (List.range newN).map RebuildEv.makeCommandBuffer
    ++ [RebuildEv.makeFrameResources]

/-- Whether an event destroys an object owned by the swapchain or by the
per-frame resources: image views, frame buffers, the mapped model and
uniform buffers with their memory, the semaphores and fences, the frame
descriptor pool, and the swapchain handle itself — and nothing else. -/
def isSwapchainDependentDestroy : RebuildEv → Bool
  | RebuildEv.destroyImageView _ => true
  | RebuildEv.destroyFramebuffer _ => true
  | RebuildEv.unmapModelMemory _ => true
  | RebuildEv.freeModelMemory _ => true
  | RebuildEv.destroyModelBuffer _ => true
  | RebuildEv.unmapUniformMemory _ => true
  | RebuildEv.freeUniformMemory _ => true
  | RebuildEv.destroyUniformBuffer _ => true
  | RebuildEv.destroyRenderFinishedSemaphore _ => true
  | RebuildEv.destroyImageAvailableSemaphore _ => true
  | RebuildEv.destroyInFlightFence _ => true
  | RebuildEv.destroyDescriptorPool => true
  | RebuildEv.destroySwapchainHandle => true
  | _ => false

/-! GPU object-creation helpers, embedding `make_fence` and
`make_semaphore` (src/src/display/sync.py lines 21-58), and
`make_command_pool` and `make_command_buffer`
(src/src/display/commands.py lines 51-102).  Each underlying Vulkan
creation call either returns a handle or raises a `VkError` /
`VkException`; its outcome is the helper's input.  Handles are modelled
as numbers. -/

/-- A Vulkan error raised by a creation call. -/
inductive VkErr where
  | deviceLost
  | outOfMemory
  | other
  deriving DecidableEq, Repr

/-- Shallow embedding of `make_fence` (sync.py lines 40-58): on success
return the created fence; on `VkError` / `VkException` log the failure
and return `None`. -/
def make_fence (r : Except VkErr Nat) : Option Nat :=
  match r with
  | Except.ok h => some h
  | Except.error _ => none

/-- Shallow embedding of `make_semaphore` (sync.py lines 21-38): on
success return the created semaphore; on `VkError` / `VkException` log
the failure and return `None`. -/
def make_semaphore (r : Except VkErr Nat) : Option Nat :=
  match r with
  | Except.ok h => some h
  | Except.error _ => none

/-- Shallow embedding of `make_command_pool` (commands.py lines 51-75):
on success return the created pool; on `VkError` / `VkException` log the
failure and return `None`. -/
def make_command_pool (r : Except VkErr Nat) : Option Nat :=
  match r with
  | Except.ok h => some h
  | Except.error _ => none

/-- Shallow embedding of `make_command_buffer` (commands.py lines
77-102): on success return the first allocated buffer; on `VkError` /
`VkException` log the failure and return `None`. -/
def make_command_buffer (r : Except VkErr Nat) : Option Nat :=
  match r with
  | Except.ok h => some h
  | Except.error _ => none

/-- Creation outcomes for one frame slot's synchronization objects, in
the order `__make_frame_resources` creates them. -/
structure FrameSyncEnv where
  fenceResult : Except VkErr Nat
  iaSemResult : Except VkErr Nat
  rfSemResult : Except VkErr Nat
  deriving Repr

/-- The synchronization fields `__make_frame_resources` assigns on a
`SwapChainFrame`; each is `None` when its creation failed. -/
structure FrameSync where
  in_flight_fence : Option Nat
  image_available_semaphore : Option Nat
  render_finished_semaphore : Option Nat
  deriving DecidableEq, Repr

/-- Shallow embedding of the synchronization-object loop of
`Engine.__make_frame_resources` (engine.py lines 327-330): for each
frame, assign `make_fence` and two `make_semaphore` results to the
frame's fields.  No step raises, so the result is always a normal
return. -/
def make_frame_resources (envs : List FrameSyncEnv) :
    Except PyErr (List FrameSync) :=
  Except.ok (envs.map fun e =>
    { in_flight_fence := make_fence e.fenceResult,
      image_available_semaphore := make_semaphore e.iaSemResult,
      render_finished_semaphore := make_semaphore e.rfSemResult })

/-! Scene data, draw-command recording and per-frame preparation,
embedding the `Scene` class (src/src/display/scene.py),
`Engine.__record_draw_command` / `Engine.__render_mesh` (engine.py lines
489-587) and `Engine.__prepare_frame` (lines 589-666).  The position
type is a parameter: positions are only ever counted and wrapped into
translation matrices. -/

/-- The three mesh classes of src/src/display/mesh.py. -/
inductive MeshKind where
  | triangle
  | square
  | pentagon
  deriving DecidableEq, Repr

/-- Number of entries in each mesh class's `points` tuple (mesh.py:
`TriangleMesh` 3, `SquareMesh` 6, `PentagonMesh` 9); `vkCmdDraw` uses it
as `vertexCount`. -/
def mesh_points_count : MeshKind → Nat
  | MeshKind.triangle => 3
  | MeshKind.square => 6
  | MeshKind.pentagon => 9

/-- A `Scene` (scene.py): three position lists, one per mesh kind, in
the order the engine draws them. -/
structure Scene (P : Type) where
  triangle_positions : List P
  square_positions : List P
  pentagon_positions : List P
  deriving DecidableEq, Repr

/-- A 4x4 float32 model matrix, opaque: `matrix44.create_identity` or
`matrix44.create_from_translation(pos)`. -/
inductive Mat (P : Type) where
  | identity
  | translation (p : P)
  deriving DecidableEq, Repr

/-- Arguments of one `vkCmdDraw` call as issued by
`Engine.__render_mesh` (engine.py lines 579-585). -/
structure DrawCmd where
  vertexCount : Nat
  instanceCount : Nat
  firstVertex : Nat
  firstInstance : Nat
  deriving DecidableEq, Repr

/-- Recording steps issued inside the command-buffer scope of
`Engine.__record_draw_command`, in program order. -/
inductive RecStep where
  | bindDescriptorSets
  | bindPipeline
  | useMaterial (k : MeshKind)
  | bindVertexBuffers (k : MeshKind)
  | draw (cmd : DrawCmd)
  deriving DecidableEq, Repr

/-- Events of one `Engine.__record_draw_command` execution:
`vkBeginCommandBuffer` / `vkEndCommandBuffer` (from
`CommandBufferManager`), `vkCmdBeginRenderPass` / `vkCmdEndRenderPass`
(from `RenderPassManager`), and the recorded commands. -/
inductive RecEv where
  | beginCommandBuffer
  | endCommandBuffer
  | beginRenderPass
  | endRenderPass
  | cmd (st : RecStep)
  deriving DecidableEq, Repr

/-- Shallow embedding of `Engine.__render_mesh` (engine.py lines
559-587): bind the mesh's material, bind its vertex buffer, issue one
instanced draw over `[first_instance, first_instance + instance_count)`,
and return the next `first_instance`. -/
def render_mesh_steps (k : MeshKind) (first count : Nat) :
    List RecStep × Nat :=
  ([RecStep.useMaterial k,
    RecStep.bindVertexBuffers k,
    RecStep.draw
      { vertexCount := mesh_points_count k, instanceCount := count,
        firstVertex := 0, firstInstance := first }],
   first + count)

/-- Recording steps of the render-pass body of
`Engine.__record_draw_command` (engine.py lines 523-557): bind the
pipeline, then render triangles, squares and pentagons in that order,
threading `first_instance` through the three `__render_mesh` calls
starting from 0. -/
def record_draw_body_steps {P : Type} (s : Scene P) : List RecStep :=
  let t := render_mesh_steps MeshKind.triangle 0 s.triangle_positions.length
  let q := render_mesh_steps MeshKind.square t.2 s.square_positions.length
  let g := render_mesh_steps MeshKind.pentagon q.2 s.pentagon_positions.length
  RecStep.bindPipeline :: (t.1 ++ q.1 ++ g.1)

/-- Run a list of recording steps where each step may raise (oracle
`fails`): emit the steps executed, stopping at the first failure, and
report whether all steps ran. -/
def run_body (fails : RecStep → Bool) : List RecStep → List RecEv × Bool
  | [] => ([], true)
  | st :: rest =>
      if fails st then ([], false)
      else
        let r := run_body fails rest
        (RecEv.cmd st :: r.1, r.2)

/-- Shallow embedding of `Engine.__record_draw_command` (engine.py lines
489-557) with Python `with`-statement semantics: the
`CommandBufferManager` scope opens with `vkBeginCommandBuffer`, then
`vkCmdBindDescriptorSets` runs, then the `RenderPassManager` scope opens
with `vkCmdBeginRenderPass` around the body steps; each manager's
`__exit__` (which calls the matching end) runs even when the body raises,
after which the exception keeps propagating.  Returns the event trace and
whether recording completed without an exception. -/
def record_draw_command {P : Type} (s : Scene P)
    (fails : RecStep → Bool) : List RecEv × Bool :=
  if fails RecStep.bindDescriptorSets then
    ([RecEv.beginCommandBuffer, RecEv.endCommandBuffer], false)
  else
    let r := run_body fails (record_draw_body_steps s)
    (RecEv.beginCommandBuffer :: RecEv.cmd RecStep.bindDescriptorSets
       :: RecEv.beginRenderPass
       :: (r.1 ++ [RecEv.endRenderPass, RecEv.endCommandBuffer]),
     r.2)

/-- Stack-machine check that begin/end events are strictly nested and
paired: `true` on the stack marks an open command buffer, `false` an
open render pass; the trace must close every scope it opens, innermost
first, and end with an empty stack. -/
def nestScan : List RecEv → List Bool → Bool
  | [], stack => stack.isEmpty
  | RecEv.beginCommandBuffer :: rest, stack => nestScan rest (true :: stack)
  | RecEv.beginRenderPass :: rest, stack => nestScan rest (false :: stack)
  | RecEv.endCommandBuffer :: rest, true :: stack => nestScan rest stack
  | RecEv.endCommandBuffer :: _, _ => false
  | RecEv.endRenderPass :: rest, false :: stack => nestScan rest stack
  | RecEv.endRenderPass :: _, _ => false
  | RecEv.cmd _ :: rest, stack => nestScan rest stack

/-- The `vkCmdDraw` calls of a recording trace, in order. -/
def draw_commands (evs : List RecEv) : List DrawCmd :=
  evs.filterMap fun e =>
    match e with
    | RecEv.cmd (RecStep.draw c) => some c
    | _ => none

/-- Capacity of a frame's model transform table:
`SwapChainFrame.make_descriptor_resources` builds it from
`range(1024)` (swapchain.py lines 145-148). -/
def model_transforms_capacity : Nat := 1024

/-- The freshly created `model_transforms` array: 1024 identity
matrices. -/
def initial_model_transforms (P : Type) : Array (Mat P) :=
  Array.mkArray model_transforms_capacity Mat.identity

/-- One position group of the `__prepare_frame` transform loop
(engine.py lines 628-654): for each position, write
`create_from_translation(pos)` at index `i` and increment `i`.  The
numpy assignment `frame.model_transforms[i] = ...` raises `IndexError`
when `i` is out of bounds.  Returns the updated table, the final index,
and the `(index, mesh kind)` log of the writes performed. -/
def write_transform_group {P : Type} (tbl : Array (Mat P)) (i : Nat)
    (k : MeshKind) : List P →
    Except PyErr (Array (Mat P) × Nat × List (Nat × MeshKind))
  | [] => Except.ok (tbl, i, [])
  | p :: rest =>
      if h : i < tbl.size then
        match write_transform_group (tbl.set ⟨i, h⟩ (Mat.translation p))
            (i + 1) k rest with
        | Except.ok (t, j, evs) => Except.ok (t, j, (i, k) :: evs)
        | Except.error e => Except.error e
      else Except.error PyErr.indexError

/-- Result of a completed `Engine.__prepare_frame` call. -/
structure PrepResult (P : Type) where
  table : Array (Mat P)
  uniformBytesCopied : Nat
  modelBytesCopied : Nat
  writes : List (Nat × MeshKind)
  deriving DecidableEq, Repr

/-- Shallow embedding of `Engine.__prepare_frame` (engine.py lines
589-666): after the camera matrices are written to the uniform buffer
(`3 * (4*4) * 4` bytes, lines 614-626), the transform loop writes one
translation matrix per scene position into `model_transforms`, filling
triangles, then squares, then pentagons from index 0 (lines 628-654);
finally `i * (4*4) * 4` bytes are copied into the mapped model buffer
(lines 656-664).  An out-of-bounds write raises `IndexError` before the
model-buffer copy. -/
def prepare_frame {P : Type} (s : Scene P) :
    Except PyErr (PrepResult P) :=
  let uniformBytes := 3 * (4 * 4) * 4
  match write_transform_group (initial_model_transforms P) 0
      MeshKind.triangle s.triangle_positions with
  | Except.error e => Except.error e
  | Except.ok (t1, i1, w1) =>
    match write_transform_group t1 i1 MeshKind.square
        s.square_positions with
    | Except.error e => Except.error e
    | Except.ok (t2, i2, w2) =>
      match write_transform_group t2 i2 MeshKind.pentagon
          s.pentagon_positions with
      | Except.error e => Except.error e
      | Except.ok (t3, i3, w3) =>
        Except.ok
          { table := t3, uniformBytesCopied := uniformBytes,
            modelBytesCopied := i3 * (4 * 4) * 4,
            writes := w1 ++ w2 ++ w3 }

/-- Total number of drawable instances of a scene. -/
def sceneTotal {P : Type} (s : Scene P) : Nat :=
  s.triangle_positions.length + s.square_positions.length
    + s.pentagon_positions.length

/-! The process run loop, embedding `SpaceGPS.run` and
`SpaceGPS.__mainloop` (src/main.py lines 33-43).  `__mainloop` calls
`poll_events()`, then `self.__display_engine.render()` with no
arguments, although `Engine.render(self, scene)` (engine.py line 408)
requires the positional argument `scene`; Python's argument binding then
raises `TypeError` before the method body runs. -/

/-- Events of the run loop. -/
inductive LoopEv where
  | pollWindowShouldClose (res : Bool)
  | pollEvents
  | renderReturned
  | calculateFps
  deriving DecidableEq, Repr

/-- Python argument binding for `Engine.render`: the method requires
exactly one positional argument (`scene`); any other argument count
raises `TypeError` before the body runs.  On a well-formed call the body
is the per-frame protocol `Engine.render`. -/
def render_py_call {P : Type} (s : EngineState) (env : RenderEnv)
    (args : List (Scene P)) : Except PyErr RenderResult :=
  match args with
  | [_] => Except.ok (Engine.render s env)
  | _ => Except.error PyErr.typeError

/-- Shallow embedding of `SpaceGPS.__mainloop` (main.py lines 38-43):
`poll_events()`, then `self.__display_engine.render()` — called with an
empty argument list, as in the source — then `__calculate_fps()`.  A
raised exception propagates and skips the remaining steps. -/
def mainloop (s : EngineState) (env : RenderEnv) :
    List LoopEv × Except PyErr EngineState :=
  match render_py_call (P := Unit) s env [] with
  | Except.error e => ([LoopEv.pollEvents], Except.error e)
  | Except.ok r =>
      match r.outcome with
      | RenderOutcome.exn e => ([LoopEv.pollEvents], Except.error e)
      | RenderOutcome.ok =>
          ([LoopEv.pollEvents, LoopEv.renderReturned, LoopEv.calculateFps],
           Except.ok r.state)

/-- Shallow embedding of `SpaceGPS.run` (main.py lines 33-36): while
`window_should_close` reports false, run `__mainloop`; a propagated
exception terminates the loop.  `shouldClose i` is the window-close
state polled at iteration `i`, `envs i` the external outcomes of that
iteration's render call; `fuel` bounds the number of iterations
examined. -/
def run_loop (shouldClose : Nat → Bool) (envs : Nat → RenderEnv) :
    Nat → Nat → EngineState → List LoopEv × Except PyErr EngineState
  | 0, _, s => ([], Except.ok s)
  | fuel + 1, i, s =>
      if shouldClose i then
        ([LoopEv.pollWindowShouldClose true], Except.ok s)
      else
        match mainloop s (envs i) with
        | (evs, Except.error e) =>
            (LoopEv.pollWindowShouldClose false :: evs, Except.error e)
        | (evs, Except.ok s1) =>
            let r := run_loop shouldClose envs fuel (i + 1) s1
            (LoopEv.pollWindowShouldClose false :: evs ++ r.1, r.2)

/-! Theorems.  Helper lemmas come first, then one theorem per claim of
the specification (with its witness or counterexample where needed). -/

/-- Outcome of `Engine.render` is normal when the environment is
successful. -/
theorem render_outcome_of_successful (s : EngineState) (e : RenderEnv)
    (h : envIsSuccessful e = true) :
    (Engine.render s e).outcome = RenderOutcome.ok := by
  rcases e with ⟨acq, prep, sub, pres, m⟩
  cases acq with
  | success idx =>
      cases prep
      · simp [envIsSuccessful] at h
      · cases pres
        · cases sub <;> rfl
        · cases sub <;> rfl
        · simp [envIsSuccessful] at h
  | outOfDate => simp [envIsSuccessful] at h
  | otherError => simp [envIsSuccessful] at h

/-- Auxiliary invariant for the round-robin property: running successful
calls whose recreations preserve the image count `N` advances the frame
counter by the number of calls, modulo `N`. -/
theorem renderRun_counter (N : Nat) :
    ∀ (envs : List RenderEnv) (s : EngineState),
    s.maxFramesInFlight = N →
    s.currentFrameNumber < N →
    (∀ e ∈ envs, envIsSuccessful e = true) →
    (∀ e ∈ envs, e.present = PresentResult.outOfDate →
        e.recreatedImageCount = N) →
    (renderRun s envs).currentFrameNumber
        = (s.currentFrameNumber + envs.length) % N ∧
      (renderRun s envs).maxFramesInFlight = N := by
  intro envs
  induction envs with
  | nil =>
      intro s hmax hlt _ _
      refine ⟨?_, hmax⟩
      simp [renderRun, Nat.mod_eq_of_lt hlt]
  | cons e rest ih =>
      intro s hmax hlt hok hrec
      have hN : 0 < N := Nat.lt_of_le_of_lt (Nat.zero_le _) hlt
      have he : envIsSuccessful e = true := hok e (List.mem_cons_self e rest)
      have hrest_ok : ∀ x ∈ rest, envIsSuccessful x = true :=
        fun x hx => hok x (List.mem_cons_of_mem e hx)
      have hrest_rec : ∀ x ∈ rest, x.present = PresentResult.outOfDate →
          x.recreatedImageCount = N :=
        fun x hx => hrec x (List.mem_cons_of_mem e hx)
      have hstep : (Engine.render s e).state.currentFrameNumber
            = (s.currentFrameNumber + 1) % N ∧
          (Engine.render s e).state.maxFramesInFlight = N := by
        have hm := hrec e (List.mem_cons_self e rest)
        rcases e with ⟨acq, prep, sub, pres, m⟩
        cases acq with
        | success idx =>
            cases prep
            · simp [envIsSuccessful] at he
            · cases pres with
              | ok =>
                  refine ⟨?_, ?_⟩ <;> cases sub
                  · show (s.currentFrameNumber + 1) % s.maxFramesInFlight
                        = (s.currentFrameNumber + 1) % N
                    rw [hmax]
                  · show (s.currentFrameNumber + 1) % s.maxFramesInFlight
                        = (s.currentFrameNumber + 1) % N
                    rw [hmax]
                  · exact hmax
                  · exact hmax
              | outOfDate =>
                  have hmN : m = N := hm rfl
                  refine ⟨?_, ?_⟩ <;> cases sub
                  · show (s.currentFrameNumber + 1) % m
                        = (s.currentFrameNumber + 1) % N
                    rw [hmN]
                  · show (s.currentFrameNumber + 1) % m
                        = (s.currentFrameNumber + 1) % N
                    rw [hmN]
                  · exact hmN
                  · exact hmN
              | otherError => simp [envIsSuccessful] at he
        | outOfDate => simp [envIsSuccessful] at he
        | otherError => simp [envIsSuccessful] at he
      have hrun : renderRun s (e :: rest)
          = renderRun (Engine.render s e).state rest := rfl
      rw [hrun]
      have hlt' : (Engine.render s e).state.currentFrameNumber < N := by
        rw [hstep.1]; exact Nat.mod_lt _ hN
      rcases ih (Engine.render s e).state hstep.2 hlt' hrest_ok hrest_rec with
        ⟨ih1, ih2⟩
      refine ⟨?_, ih2⟩
      rw [ih1, hstep.1, Nat.mod_add_mod, List.length_cons]
      congr 1
      omega

/-- C1: the claim that the in-flight fence is reset only after a
successful acquisition fails on the code: `Engine.render` calls
`vkResetFences` (engine.py line 432) before `vkAcquireNextImageKHR`
(line 435), so even in a fully successful frame the reset precedes the
acquisition. -/
theorem render_fence_reset_before_acquire_cex :
    resetOnlyAfterAcquire
      (Engine.render
        { currentFrameNumber := 0, maxFramesInFlight := 2 }
        { acquire := AcquireResult.success 0, prepareOk := true,
          submit := SubmitResult.ok, present := PresentResult.ok,
          recreatedImageCount := 2 }).trace = false := by
  decide

/-- C1 (amended): in every execution of `Engine.render`, the current
slot's in-flight fence is reset immediately after the fence wait and
before image acquisition is attempted, whatever the acquisition
outcome. -/
theorem render_fence_reset_first (s : EngineState) (env : RenderEnv) :
    ∃ rest, (Engine.render s env).trace
      = Ev.waitFence s.currentFrameNumber
          :: Ev.resetFence s.currentFrameNumber :: rest := by
  rcases env with ⟨acq, prep, sub, pres, m⟩
  cases acq <;> cases prep <;> cases sub <;> cases pres <;>
    exact ⟨_, rfl⟩

/-- C2: when acquisition reports the swapchain out of date,
`Engine.render` recreates the swapchain but then falls through to
`frame = self.__swapchain_frames[frame_index]` (engine.py line 445) with
`frame_index` never bound, raising `UnboundLocalError`.  The frame makes
no submission and no presentation, but the frame counter does not
advance and the call does not abort cleanly, so the counter has not
advanced by one when the next call starts as the claim requires. -/
theorem render_acquire_out_of_date_raises :
    Engine.render
      { currentFrameNumber := 0, maxFramesInFlight := 2 }
      { acquire := AcquireResult.outOfDate, prepareOk := true,
        submit := SubmitResult.ok, present := PresentResult.ok,
        recreatedImageCount := 2 }
    = { state := { currentFrameNumber := 0, maxFramesInFlight := 2 },
        trace := [Ev.waitFence 0, Ev.resetFence 0, Ev.acquireOutOfDate,
                  Ev.recreateSwapchain],
        outcome := RenderOutcome.exn PyErr.unboundLocalError } := rfl

/-- C3: after `k` successful `Engine.render` calls on an engine with `N`
frame slots (every recreation on the present path rebuilding `N` slots),
the frame counter equals `k mod N`: the counter advances exactly once
per successful call, including calls that recreate the swapchain after
presentation. -/
theorem render_frame_counter_round_robin (N : Nat) (envs : List RenderEnv)
    (hN : 0 < N)
    (hok : ∀ e ∈ envs, envIsSuccessful e = true)
    (hrec : ∀ e ∈ envs, e.present = PresentResult.outOfDate →
        e.recreatedImageCount = N) :
    (renderRun { currentFrameNumber := 0, maxFramesInFlight := N }
        envs).currentFrameNumber = envs.length % N := by
  have := renderRun_counter N envs
      { currentFrameNumber := 0, maxFramesInFlight := N } rfl hN hok hrec
  simpa using this.1

/-- Witness for C3 at a concrete run: three successful calls on a
two-slot engine, the second of which hits the present-out-of-date
recreation path, leave the frame counter at `3 mod 2 = 1`. -/
theorem render_frame_counter_round_robin_witness :
    (0 : Nat) < 2 ∧
    (renderRun { currentFrameNumber := 0, maxFramesInFlight := 2 }
        [{ acquire := AcquireResult.success 0, prepareOk := true,
           submit := SubmitResult.ok, present := PresentResult.ok,
           recreatedImageCount := 2 },
         { acquire := AcquireResult.success 1, prepareOk := true,
           submit := SubmitResult.ok, present := PresentResult.outOfDate,
           recreatedImageCount := 2 },
         { acquire := AcquireResult.success 0, prepareOk := true,
           submit := SubmitResult.err, present := PresentResult.ok,
           recreatedImageCount := 2 }]).currentFrameNumber = 3 % 2 :=
  ⟨by decide,
   render_frame_counter_round_robin 2 _ (by decide) (by decide) (by decide)⟩

/-- C4: the image-count clause of the claim fails on the code: for a
surface reporting `maxImageCount = 0` (unbounded) and
`minImageCount = 2`, the specification's value is `3`, but
`_chose_swapchain_extent` computes `min(0, 3) = 0` — it never
special-cases `maxImageCount == 0`. -/
theorem chose_swapchain_extent_image_count_cex :
    (chose_swapchain_extent
        { minImageExtent := ⟨1, 1⟩, maxImageExtent := ⟨4096, 4096⟩,
          minImageCount := 2, maxImageCount := 0,
          currentTransform := 0 } 640 480).2.1 = 0 ∧
    specImageCount
        { minImageExtent := ⟨1, 1⟩, maxImageExtent := ⟨4096, 4096⟩,
          minImageCount := 2, maxImageCount := 0,
          currentTransform := 0 } = 3 := by
  decide

/-- C4 (amended): for every requested window extent and every surface
capability record whose extent range is well-formed
(`minImageExtent ≤ maxImageExtent` componentwise), the extent chosen by
`_chose_swapchain_extent` satisfies
`minImageExtent ≤ extent ≤ maxImageExtent` componentwise, and the chosen
image count equals `min(maxImageCount, minImageCount + 1)` with no
special treatment of `maxImageCount == 0`. -/
theorem chose_swapchain_extent_in_bounds (caps : VkSurfaceCapabilities)
    (width height : Nat)
    (hw : caps.minImageExtent.width ≤ caps.maxImageExtent.width)
    (hh : caps.minImageExtent.height ≤ caps.maxImageExtent.height) :
    caps.minImageExtent.width
        ≤ (chose_swapchain_extent caps width height).1.width ∧
    (chose_swapchain_extent caps width height).1.width
        ≤ caps.maxImageExtent.width ∧
    caps.minImageExtent.height
        ≤ (chose_swapchain_extent caps width height).1.height ∧
    (chose_swapchain_extent caps width height).1.height
        ≤ caps.maxImageExtent.height ∧
    (chose_swapchain_extent caps width height).2.1
        = min caps.maxImageCount (caps.minImageCount + 1) := by
  refine ⟨?_, ?_, ?_, ?_, rfl⟩ <;> simp [chose_swapchain_extent] <;> omega

/-- Witness for C4 at a concrete input: a `1×1 .. 2048×2048` capability
range clamps a `4000×1` request to `2048×1`, and a capability record
with `maxImageCount = 3`, `minImageCount = 2` yields image count `3`. -/
theorem chose_swapchain_extent_in_bounds_witness :
    (1 ≤ (chose_swapchain_extent
        { minImageExtent := ⟨1, 1⟩, maxImageExtent := ⟨2048, 2048⟩,
          minImageCount := 2, maxImageCount := 3,
          currentTransform := 0 } 4000 1).1.width ∧
     (chose_swapchain_extent
        { minImageExtent := ⟨1, 1⟩, maxImageExtent := ⟨2048, 2048⟩,
          minImageCount := 2, maxImageCount := 3,
          currentTransform := 0 } 4000 1).1.width ≤ 2048 ∧
     1 ≤ (chose_swapchain_extent
        { minImageExtent := ⟨1, 1⟩, maxImageExtent := ⟨2048, 2048⟩,
          minImageCount := 2, maxImageCount := 3,
          currentTransform := 0 } 4000 1).1.height ∧
     (chose_swapchain_extent
        { minImageExtent := ⟨1, 1⟩, maxImageExtent := ⟨2048, 2048⟩,
          minImageCount := 2, maxImageCount := 3,
          currentTransform := 0 } 4000 1).1.height ≤ 2048 ∧
     (chose_swapchain_extent
        { minImageExtent := ⟨1, 1⟩, maxImageExtent := ⟨2048, 2048⟩,
          minImageCount := 2, maxImageCount := 3,
          currentTransform := 0 } 4000 1).2.1 = min 3 (2 + 1)) :=
  chose_swapchain_extent_in_bounds
    { minImageExtent := ⟨1, 1⟩, maxImageExtent := ⟨2048, 2048⟩,
      minImageCount := 2, maxImageCount := 3, currentTransform := 0 }
    4000 1 (by decide) (by decide)

/-- Every event of the `__cleanup_swapchain` trace destroys a
swapchain-dependent object; in particular the pipeline, render pass,
pipeline layout, command pool, command buffers, device, and instance are
untouched. -/
theorem cleanup_swapchain_trace_all_dependent (n : Nat) :
    (cleanup_swapchain_trace n).all isSwapchainDependentDestroy = true := by
  rw [List.all_eq_true]
  intro e he
  rw [cleanup_swapchain_trace, List.mem_append] at he
  rcases he with he | he
  · rw [List.mem_flatMap] at he
    rcases he with ⟨i, _, hi⟩
    simp only [cleanup_frame_trace, List.mem_cons, List.not_mem_nil,
      or_false] at hi
    rcases hi with rfl | rfl | rfl | rfl | rfl | rfl | rfl | rfl | rfl
        | rfl | rfl <;> rfl
  · simp only [List.mem_cons, List.not_mem_nil, or_false] at he
    rcases he with rfl | rfl <;> rfl

/-- C5: the claim that recreation destroys the pipeline, render pass,
pipeline layout and per-slot command buffers fails on the code: for a
two-slot engine, the `__recreate_swapchain` trace contains no
`vkDestroyPipeline`, `vkDestroyRenderPass`, `vkDestroyPipelineLayout`,
and rebuilds no pipeline or render pass. -/
theorem recreate_swapchain_no_pipeline_destroy_cex :
    ((recreate_swapchain_trace 2 2).contains RebuildEv.destroyPipeline
      = false) ∧
    ((recreate_swapchain_trace 2 2).contains RebuildEv.destroyRenderPass
      = false) ∧
    ((recreate_swapchain_trace 2 2).contains RebuildEv.destroyPipelineLayout
      = false) ∧
    ((recreate_swapchain_trace 2 2).contains RebuildEv.makeGraphicsPipeline
      = false) := by
  decide

/-- C5 (amended): every swapchain recreation first blocks while the
window is minimized, then waits for device idle, then destroys only
swapchain-dependent objects — the per-frame image views, frame buffers,
mapped model and uniform buffers with their memory, semaphores and
fences, then the frame descriptor pool and the swapchain — leaving the
pipeline, render pass, pipeline layout, command pool, device, and
instance untouched (per-slot command buffers are not freed but replaced
by newly allocated ones), then rebuilds swapchain → frame buffers →
per-slot command buffers → frame resources in that dependency order. -/
theorem recreate_swapchain_order (oldN newN : Nat) :
    ∃ destroyPhase,
      recreate_swapchain_trace oldN newN
        = RebuildEv.pollEventsMinimized :: RebuildEv.deviceWaitIdle
            :: destroyPhase
            ++ [RebuildEv.makeSwapchain, RebuildEv.makeFrameBuffers]
            ++ (List.range newN).map RebuildEv.makeCommandBuffer
            ++ [RebuildEv.makeFrameResources] ∧
      destroyPhase.all isSwapchainDependentDestroy = true := by
  refine ⟨cleanup_swapchain_trace oldN, ?_,
    cleanup_swapchain_trace_all_dependent oldN⟩
  simp [recreate_swapchain_trace]

/-- C6: the claim that a creation failure is propagated as an error
aborting the setup phase fails on the code: with the fence creation of
the only frame slot failing, `make_fence` returns `None` and
`__make_frame_resources` still returns normally, yielding a frame whose
`in_flight_fence` is `None` — a partially constructed engine. -/
theorem make_fence_failure_not_propagated_cex :
    make_fence (Except.error VkErr.deviceLost) = none ∧
    make_frame_resources
        [{ fenceResult := Except.error VkErr.deviceLost,
           iaSemResult := Except.ok 1, rfSemResult := Except.ok 2 }]
      = Except.ok
          [{ in_flight_fence := none,
             image_available_semaphore := some 1,
             render_finished_semaphore := some 2 }] :=
  ⟨rfl, rfl⟩

/-- C6 (amended): for every GPU object-creation helper (fence,
semaphore, command pool, command buffer), if the underlying creation
call fails then the failure is logged and the helper returns `None`
instead of raising; the enclosing setup phase continues and returns
normally, leaving the corresponding handle `None` on the partially
constructed engine. -/
theorem creation_failure_returns_none (err : VkErr)
    (envs : List FrameSyncEnv) :
    make_fence (Except.error err) = none ∧
    make_semaphore (Except.error err) = none ∧
    make_command_pool (Except.error err) = none ∧
    make_command_buffer (Except.error err) = none ∧
    (make_frame_resources envs).isOk = true :=
  ⟨rfl, rfl, rfl, rfl, rfl⟩

/-- Events emitted by a run of body steps are exactly the executed
commands, so they leave the nesting stack unchanged. -/
theorem nestScan_run_body (fails : RecStep → Bool) (r : List RecEv)
    (stack : List Bool) :
    ∀ steps : List RecStep,
      nestScan ((run_body fails steps).1 ++ r) stack = nestScan r stack := by
  intro steps
  induction steps with
  | nil => rfl
  | cons st rest ih =>
      cases hf : fails st
      · simpa [run_body, hf, nestScan] using ih
      · simp [run_body, hf]

/-- C8: on every execution path through `Engine.__record_draw_command`,
including paths where a recording step raises midway, the command-buffer
begin/end and render-pass begin/end events are strictly nested and
paired: the context managers' `__exit__` methods end the begun render
pass and the begun command buffer before the exception propagates. -/
theorem record_draw_command_nested {P : Type} (s : Scene P)
    (fails : RecStep → Bool) :
    nestScan (record_draw_command s fails).1 [] = true := by
  cases hf : fails RecStep.bindDescriptorSets
  · have htail := nestScan_run_body fails
      [RecEv.endRenderPass, RecEv.endCommandBuffer] [false, true]
      (record_draw_body_steps s)
    simp [record_draw_command, hf, nestScan, htail]
  · simp [record_draw_command, hf, nestScan]

/-- C7: a scene with instance counts 10, 6, 9 (triangles, squares,
pentagons) records three instanced draws with `first_instance` 0, 10, 16
and `instance_count` 10, 6, 9 (vertex counts 3, 6, 9), and
`__prepare_frame` fills the transform table at the same contiguous index
ranges in the same mesh order, 25 entries in total, within the
1024-entry capacity. -/
theorem record_draw_and_prepare_10_6_9 :
    draw_commands (record_draw_command
        ({ triangle_positions := List.replicate 10 (),
           square_positions := List.replicate 6 (),
           pentagon_positions := List.replicate 9 () } : Scene Unit)
        (fun _ => false)).1
      = [{ vertexCount := 3, instanceCount := 10, firstVertex := 0,
           firstInstance := 0 },
         { vertexCount := 6, instanceCount := 6, firstVertex := 0,
           firstInstance := 10 },
         { vertexCount := 9, instanceCount := 9, firstVertex := 0,
           firstInstance := 16 }] ∧
    (prepare_frame
        ({ triangle_positions := List.replicate 10 (),
           square_positions := List.replicate 6 (),
           pentagon_positions := List.replicate 9 () }
          : Scene Unit)).toOption.map PrepResult.writes
      = some (((List.range 10).map fun i => (i, MeshKind.triangle))
          ++ ((List.range 6).map fun i => (10 + i, MeshKind.square))
          ++ ((List.range 9).map fun i => (16 + i, MeshKind.pentagon))) ∧
    sceneTotal
        ({ triangle_positions := List.replicate 10 (),
           square_positions := List.replicate 6 (),
           pentagon_positions := List.replicate 9 () } : Scene Unit) = 25 ∧
    (initial_model_transforms Unit).size = 1024 ∧
    25 ≤ model_transforms_capacity := by
  set_option maxRecDepth 100000 in decide

/-- Writing a position group whose writes stay within the table's size
succeeds, advances the index by the group length, preserves the table
size, and logs one write per position. -/
theorem write_transform_group_ok {P : Type} (k : MeshKind) :
    ∀ (ps : List P) (tbl : Array (Mat P)) (i : Nat),
      i + ps.length ≤ tbl.size →
      ∃ t evs,
        write_transform_group tbl i k ps
            = Except.ok (t, i + ps.length, evs) ∧
          t.size = tbl.size ∧ evs.length = ps.length := by
  intro ps
  induction ps with
  | nil =>
      intro tbl i _
      exact ⟨tbl, [], by simp [write_transform_group], rfl, rfl⟩
  | cons p rest ih =>
      intro tbl i h
      have hi : i < tbl.size := by
        simp only [List.length_cons] at h
        omega
      have hle : (i + 1) + rest.length
          ≤ (tbl.set ⟨i, hi⟩ (Mat.translation p)).size := by
        rw [Array.size_set]
        simp only [List.length_cons] at h
        omega
      rcases ih (tbl.set ⟨i, hi⟩ (Mat.translation p)) (i + 1) hle with
        ⟨t, evs, heq, hsz, hlen⟩
      have harith : i + 1 + rest.length = i + (rest.length + 1) := by omega
      refine ⟨t, (i, k) :: evs, ?_, ?_, ?_⟩
      · simp only [write_transform_group]
        rw [dif_pos hi, heq]
        simp [harith]
      · rw [hsz, Array.size_set]
      · simp [hlen]

/-- Writing a position group that overflows the table raises
`IndexError`. -/
theorem write_transform_group_err {P : Type} (k : MeshKind) :
    ∀ (ps : List P) (tbl : Array (Mat P)) (i : Nat),
      i ≤ tbl.size → tbl.size < i + ps.length →
      write_transform_group tbl i k ps
        = Except.error PyErr.indexError := by
  intro ps
  induction ps with
  | nil =>
      intro tbl i h1 h2
      exfalso
      simp only [List.length_nil, Nat.add_zero] at h2
      omega
  | cons p rest ih =>
      intro tbl i h1 h2
      by_cases hi : i < tbl.size
      · have heq := ih (tbl.set ⟨i, hi⟩ (Mat.translation p)) (i + 1)
          (by rw [Array.size_set]; omega)
          (by rw [Array.size_set]; simp only [List.length_cons] at h2; omega)
        simp only [write_transform_group]
        rw [dif_pos hi, heq]
      · simp only [write_transform_group]
        rw [dif_neg hi]

/-- C10: for every scene whose total instance count fits the 1024-entry
transform table, `__prepare_frame` succeeds with every write in bounds
and copies exactly `total * 64` bytes into the mapped model buffer (one
write per instance); for every scene whose total exceeds the capacity,
`__prepare_frame` raises `IndexError` at the first out-of-bounds write,
before the model-buffer copy. -/
theorem prepare_frame_capacity {P : Type} (s : Scene P) :
    (sceneTotal s ≤ model_transforms_capacity →
      ∃ r, prepare_frame s = Except.ok r ∧
        r.modelBytesCopied = sceneTotal s * 64 ∧
        r.writes.length = sceneTotal s) ∧
    (model_transforms_capacity < sceneTotal s →
      prepare_frame s = Except.error PyErr.indexError) := by
  have hsz0 : (initial_model_transforms P).size
      = model_transforms_capacity := by
    simp [initial_model_transforms]
  constructor
  · intro hle
    simp only [sceneTotal] at hle
    rcases write_transform_group_ok MeshKind.triangle s.triangle_positions
        (initial_model_transforms P) 0 (by rw [hsz0]; omega) with
      ⟨t1, w1, e1, sz1, l1⟩
    rcases write_transform_group_ok MeshKind.square s.square_positions
        t1 (0 + s.triangle_positions.length)
        (by rw [sz1, hsz0]; omega) with ⟨t2, w2, e2, sz2, l2⟩
    rcases write_transform_group_ok MeshKind.pentagon s.pentagon_positions
        t2 (0 + s.triangle_positions.length + s.square_positions.length)
        (by rw [sz2, sz1, hsz0]; omega) with ⟨t3, w3, e3, sz3, l3⟩
    refine ⟨{ table := t3,
              uniformBytesCopied := 3 * (4 * 4) * 4,
              modelBytesCopied :=
                (0 + s.triangle_positions.length
                  + s.square_positions.length
                  + s.pentagon_positions.length) * (4 * 4) * 4,
              writes := w1 ++ w2 ++ w3 }, ?_, ?_, ?_⟩
    · simp only [prepare_frame, e1, e2, e3]
    · simp only [sceneTotal]
      omega
    · simp [l1, l2, l3, sceneTotal]
      omega
  · intro hgt
    simp only [sceneTotal] at hgt
    by_cases c1 : model_transforms_capacity < s.triangle_positions.length
    · have E1 := write_transform_group_err MeshKind.triangle
        s.triangle_positions (initial_model_transforms P) 0
        (Nat.zero_le _) (by rw [hsz0]; omega)
      simp only [prepare_frame, E1]
    · push_neg at c1
      rcases write_transform_group_ok MeshKind.triangle s.triangle_positions
          (initial_model_transforms P) 0 (by rw [hsz0]; omega) with
        ⟨t1, w1, e1, sz1, l1⟩
      by_cases c2 : model_transforms_capacity
          < s.triangle_positions.length + s.square_positions.length
      · have E2 := write_transform_group_err MeshKind.square
          s.square_positions t1 (0 + s.triangle_positions.length)
          (by rw [sz1, hsz0]; omega) (by rw [sz1, hsz0]; omega)
        simp only [prepare_frame, e1, E2]
      · push_neg at c2
        rcases write_transform_group_ok MeshKind.square s.square_positions
            t1 (0 + s.triangle_positions.length)
            (by rw [sz1, hsz0]; omega) with ⟨t2, w2, e2, sz2, l2⟩
        have E3 := write_transform_group_err MeshKind.pentagon
          s.pentagon_positions t2
          (0 + s.triangle_positions.length + s.square_positions.length)
          (by rw [sz2, sz1, hsz0]; omega)
          (by rw [sz2, sz1, hsz0]; omega)
        simp only [prepare_frame, e1, e2, E3]

/-- Witness for C10 at concrete scenes: a 2+1+0 scene fits and copies
3·64 bytes with 3 writes; a 1025-triangle scene overflows the 1024-entry
table and raises `IndexError`. -/
theorem prepare_frame_capacity_witness :
    sceneTotal
        ({ triangle_positions := [(), ()], square_positions := [()],
           pentagon_positions := [] } : Scene Unit)
      ≤ model_transforms_capacity ∧
    (∃ r, prepare_frame
        ({ triangle_positions := [(), ()], square_positions := [()],
           pentagon_positions := [] } : Scene Unit)
        = Except.ok r ∧
      r.modelBytesCopied
          = sceneTotal
              ({ triangle_positions := [(), ()], square_positions := [()],
                 pentagon_positions := [] } : Scene Unit) * 64 ∧
      r.writes.length
          = sceneTotal
              ({ triangle_positions := [(), ()], square_positions := [()],
                 pentagon_positions := [] } : Scene Unit)) ∧
    model_transforms_capacity
      < sceneTotal
          ({ triangle_positions := List.replicate 1025 (),
             square_positions := [],
             pentagon_positions := [] } : Scene Unit) ∧
    prepare_frame
        ({ triangle_positions := List.replicate 1025 (),
           square_positions := [],
           pentagon_positions := [] } : Scene Unit)
      = Except.error PyErr.indexError :=
  ⟨by decide, (prepare_frame_capacity _).1 (by decide),
   by set_option maxRecDepth 100000 in decide,
   (prepare_frame_capacity _).2
     (by set_option maxRecDepth 100000 in decide)⟩

/-- C9: the run loop of `SpaceGPS.run` polls the window-close state once
and polls events, but its render invocation
`self.__display_engine.render()` (main.py line 41) passes no arguments
while `Engine.render` requires the positional argument `scene`
(engine.py line 408), so the first iteration raises `TypeError` and no
frame is ever rendered. -/
theorem run_loop_first_iteration_type_error :
    run_loop (fun _ => false)
      (fun _ => { acquire := AcquireResult.success 0, prepareOk := true,
                  submit := SubmitResult.ok, present := PresentResult.ok,
                  recreatedImageCount := 2 }) 5 0
      { currentFrameNumber := 0, maxFramesInFlight := 2 }
    = ([LoopEv.pollWindowShouldClose false, LoopEv.pollEvents],
       Except.error PyErr.typeError) := rfl

end SpaceGps
